import Mathlib

/-!
Verification development for the UVM testbench scaffolding generator
(`UVM_Tb_generator.py`).  The Python program is shallowly embedded:

* Python string primitives (`strip`, `lower`, `upper`, `split`, `replace`,
  `int()`, `textwrap.dedent`, `round(_, 3)` and float formatting) are modelled
  as executable Lean functions over `List Char` / `Rat`, so that every
  definition reduces in the kernel.  the Unicode-aware case folding of Python and
  whitespace classes are restricted to their ASCII fragment, which covers the
  identifier-style tokens the CSV grammar carries.
* The CSV reader `read_interface_csv` becomes a fold over pre-split rows
  returning `Except` (the uncaught `ValueError` of `int()` is the error case).
* Each generator becomes a pure function from the parsed configuration to the
  list of file-system operations it performs (overwrites and appends, in
  program order) plus its console log lines; file contents are rebuilt
  byte-for-byte from the `f.write` calls and string literals of the source.
* The file system is a map `String → Option String`; a run of the whole
  script is `run_pipeline`, folding the operations of the five generators in
  the order they execute in the program.
-/

namespace UVMGen

/-! ## Python string primitives (ASCII fragment), modelled on `List Char` -/

/-- Whitespace characters recognised by Python `str.strip()` (ASCII part). -/
def pyWs (c : Char) : Bool :=
  c = ' ' ∨ c = '\t' ∨ c = '\n' ∨ c = '\r' ∨ c = '\x0b' ∨ c = '\x0c'

/-- `str.strip()` on the underlying character list. -/
def pyStripList (l : List Char) : List Char :=
  ((l.dropWhile pyWs).reverse.dropWhile pyWs).reverse

/-- Python `str.strip()`. -/
def pyStrip (s : String) : String := String.mk (pyStripList s.data)

/-- ASCII `str.lower()` on one character. -/
def pyCharLower (c : Char) : Char :=
  if 'A' ≤ c ∧ c ≤ 'Z' then Char.ofNat (c.toNat + 32) else c

/-- ASCII `str.upper()` on one character. -/
def pyCharUpper (c : Char) : Char :=
  if 'a' ≤ c ∧ c ≤ 'z' then Char.ofNat (c.toNat - 32) else c

/-- Python `str.lower()`. -/
def pyLower (s : String) : String := String.mk (s.data.map pyCharLower)

/-- Python `str.upper()`. -/
def pyUpper (s : String) : String := String.mk (s.data.map pyCharUpper)

/-- Python `str.replace(old, new)` for one-character patterns, as used by
`row[0].upper().replace(" ", "_")`. -/
def pyReplaceChar (s : String) (old new : Char) : String :=
  String.mk (s.data.map (fun c => if c = old then new else c))

/-- Helper for `str.split(sep)` with a one-character separator. -/
def pySplitAux (sep : Char) : List Char → List Char → List (List Char)
  | [], acc => [acc.reverse]
  | c :: cs, acc =>
    if c = sep then acc.reverse :: pySplitAux sep cs []
    else pySplitAux sep cs (c :: acc)

/-- Python `str.split(sep)` with a one-character separator
(`"".split(',') = [""]`, `"a,b".split(',') = ["a", "b"]`). -/
def pySplit (sep : Char) (s : String) : List String :=
  (pySplitAux sep s.data []).map String.mk

/-- Python `sep in s` for a one-character separator. -/
def pyContains (s : String) (c : Char) : Bool := s.data.contains c

/-- Digit-run parser used by `pyInt`. -/
def pyDigits (l : List Char) : Option Nat :=
  if l ≠ [] ∧ l.all Char.isDigit then
    some (l.foldl (fun a c => 10 * a + (c.toNat - 48)) 0)
  else none

/-- Python `int(s)` on decimal literals: surrounding whitespace and an optional
sign around a non-empty ASCII digit run; anything else raises `ValueError`
(modelled as `none`). -/
def pyInt (s : String) : Option Int :=
  match pyStripList s.data with
  | '+' :: ds => (pyDigits ds).map Int.ofNat
  | '-' :: ds => (pyDigits ds).map (fun n => -(n : Int))
  | ds => (pyDigits ds).map Int.ofNat

/-! ## `textwrap.dedent` -/

/-- A line made only of spaces and tabs (CPython `_whitespace_only_re`). -/
def wsOnlyLine (l : String) : Bool :=
  l ≠ "" ∧ l.data.all (fun c => c = ' ' ∨ c = '\t')

/-- Leading space/tab run of a line (CPython `_leading_whitespace_re`). -/
def leadingWs (l : String) : String :=
  String.mk (l.data.takeWhile (fun c => c = ' ' ∨ c = '\t'))

/-- Longest shared prefix of two character lists. -/
def sharedStart : List Char → List Char → List Char
  | a :: as, b :: bs => if a = b then a :: sharedStart as bs else []
  | _, _ => []

/-- One step of the CPython margin computation in `textwrap.dedent`. -/
def marginStep (margin indent : String) : String :=
  if margin.data.isPrefixOf indent.data then margin
  else if indent.data.isPrefixOf margin.data then indent
  else String.mk (sharedStart margin.data indent.data)

/-- `textwrap.dedent`: whitespace-only lines are normalised to empty, the
common leading whitespace of the remaining lines is computed and removed. -/
def dedent (text : String) : String :=
  let lines := (pySplit '\n' text).map (fun l => if wsOnlyLine l then "" else l)
  let indents := (lines.filter (fun l => l ≠ "")).map leadingWs
  let margin :=
    match indents with
    | [] => ""
    | i :: rest => rest.foldl marginStep i
  String.intercalate "\n"
    (lines.map (fun l =>
      if margin.data.isPrefixOf l.data then String.mk (l.data.drop margin.data.length)
      else l))

/-! ## Data model (`read_interface_csv` output) -/

/-- One parsed `INTF` row (the dict built at lines 104-122 of the source). -/
structure Interface where
  name : String
  mode : String
  speed : String
  clk : String
  rst : Option String
  rst_type : Option String
deriving DecidableEq, Repr

/-- The configuration dict: `dut_name` / `num_interfaces` keys may be absent,
`interfaces` is always set. -/
structure Config where
  dut_name : Option String := none
  num_interfaces : Option Int := none
  interfaces : List Interface := []
deriving DecidableEq, Repr

/-! ## The parser -/

/-- `[cell.strip() for cell in row if cell.strip()]`. -/
def cleanRow (row : List String) : List String :=
  (row.map pyStrip).filter (fun c => c ≠ "")

/-- `row[0].upper().replace(" ", "_")` on a cleaned row. -/
def rowKeyOf (first : String) : String :=
  pyReplaceChar (pyUpper first) ' ' '_'

/-- The optional reset info of an `INTF` row (lines 111-121): a sixth field
containing a comma is split into reset name and polarity token (the token is
stored verbatim after stripping); a comma-free sixth field is a reset name
with polarity defaulted to `"1"`; no sixth field leaves both unset. -/
def resetInfo (row : List String) : Option String × Option String :=
  if 6 ≤ row.length then
    let f5 := row.getD 5 ""
    if pyContains f5 ',' then
      let rst_fields := pySplit ',' f5
      (some (pyStrip (rst_fields.getD 0 "")),
        if 1 < rst_fields.length then some (pyStrip (rst_fields.getD 1 "")) else some "1")
    else (some (pyStrip f5), some "1")
  else (none, none)

/-- The interface record built from a cleaned `INTF` row with at least five
fields. -/
def mkInterface (row : List String) : Interface :=
  let rstInfo := resetInfo row
  { name := row.getD 1 ""
    mode := row.getD 2 ""
    speed := row.getD 3 ""
    clk := row.getD 4 ""
    rst := rstInfo.1
    rst_type := rstInfo.2 }

/-- Processing of one raw CSV row (the loop body at lines 89-123).  The only
error source is `int(row[1])` on a `NUM_INTF` row; rows that match no key, or
match a key with too few fields, are silently ignored. -/
def parseRow (config : Config) (rawRow : List String) : Except String Config :=
  let row := cleanRow rawRow
  match row with
  | [] => .ok config
  | first :: rest =>
    let key := rowKeyOf first
    if key = "DUT_NAME" then
      match rest with
      | v :: _ => .ok { config with dut_name := some v }
      | [] => .ok config
    else if key = "NUM_INTF" then
      match rest with
      | v :: _ =>
        match pyInt v with
        | some n => .ok { config with num_interfaces := some n }
        | none => .error "ValueError: invalid literal for int() with base 10"
      | [] => .ok config
    else if key = "INTF" ∧ 5 ≤ row.length then
      .ok { config with interfaces := config.interfaces ++ [mkInterface row] }
    else .ok config

/-- Folding `parseRow` over all rows. -/
def parseRows : Config → List (List String) → Except String Config
  | config, [] => .ok config
  | config, row :: rest =>
    match parseRow config row with
    | .ok c => parseRows c rest
    | .error e => .error e

/-- `read_interface_csv`, on rows already split into cells. -/
def read_interface_csv (rows : List (List String)) : Except String Config :=
  parseRows {} rows

/-- The interface record a raw row contributes, if any: exactly the `INTF`
rows with at least five non-blank fields. -/
def rowIntf (rawRow : List String) : Option Interface :=
  let row := cleanRow rawRow
  match row with
  | [] => none
  | first :: _ =>
    if rowKeyOf first = "INTF" ∧ 5 ≤ row.length then some (mkInterface row)
    else none

/-! ## Derived identifiers

Each generator re-derives identifier strings from the interface name; the
functions below are those inline derivations, one set per generator. -/

/-- Python string truthiness. -/
def strTruthy (s : String) : Bool := s ≠ ""

/-- Top-level generator, line 278: `f"{name.lower()}_if"`. -/
def top_if_type (name : String) : String := pyLower name ++ "_if"

/-- Top-level generator, lines 253 and 279: `name.lower() + "_pif"`. -/
def top_pif_inst (name : String) : String := pyLower name ++ "_pif"

/-- Environment generator, lines 482-483: `intf.get("name", "if").lower()`
then `f"{name}_agent"`. -/
def env_agent_class (name : String) : String := pyLower name ++ "_agent"

/-- Environment generator, line 484: `f"{agent_class}_h"`. -/
def env_agent_inst (name : String) : String := env_agent_class name ++ "_h"

/-- Environment generator, line 514: `{name}_ap_h` in the commented scoreboard
connection. -/
def env_ap_handle (name : String) : String := pyLower name ++ "_ap_h"

/-- Agent generator, line 577: `intf.get("name", "").strip().lower()`. -/
def agent_norm (name : String) : String := pyLower (pyStrip name)

/-- Agent generator, line 594: `f"{name}_agent"`. -/
def agent_agent_class (name : String) : String := agent_norm name ++ "_agent"

/-- Agent generator, line 578: `f"{name}_drv"`. -/
def agent_drv_name (name : String) : String := agent_norm name ++ "_drv"

/-- Agent generator, line 581: `f"{name}_sqr"`. -/
def agent_sqr_name (name : String) : String := agent_norm name ++ "_sqr"

/-- Agent generator, line 584: `f"{name}_mon"`. -/
def agent_mon_name (name : String) : String := agent_norm name ++ "_mon"

/-- Agent generator, line 587: `f"{name}_cov"`. -/
def agent_cov_name (name : String) : String := agent_norm name ++ "_cov"

/-- Agent generator, driver/monitor stubs: `{name}_if`. -/
def agent_if_type (name : String) : String := agent_norm name ++ "_if"

/-- Agent generator, sequencer/driver/monitor/coverage stubs: `{name}_tx`. -/
def agent_tx_type (name : String) : String := agent_norm name ++ "_tx"

/-- Agent generator, driver/monitor stubs: `{name}_vif`. -/
def agent_vif_handle (name : String) : String := agent_norm name ++ "_vif"

/-- Agent generator, monitor stub and agent connect phase: `{name}_ap_h`. -/
def agent_ap_handle (name : String) : String := agent_norm name ++ "_ap_h"

/-! ## Numeric model for the clock generator

`period_ns = round(1000 / speed, 3)` and `half_period = round(period_ns / 2, 3)`
are computed by Python on IEEE doubles.  Both results carry at most three
decimals, so they are modelled as exact integer counts of 0.001 ns, rounded
from the exact quotient with the Python round-half-to-even rule; this agrees with the
double computation whenever the exact quotient is not within double-precision
error of a three-decimal tie, in particular on the integer frequencies
exercised below. -/

/-- `round(a / b)` for integers with `b > 0`, ties to even (Python `round`). -/
def roundHalfEvenDiv (a b : Int) : Int :=
  let f := a / b
  let r := a % b
  if 2 * r < b then f
  else if b < 2 * r then f + 1
  else if f % 2 = 0 then f else f + 1

/-- `round(1000 / speed, 3)` in units of 0.001 ns. -/
def periodMilliNs (speed : Int) : Int := roundHalfEvenDiv 1000000 speed

/-- `round(period_ns / 2, 3)` in units of 0.001 ns. -/
def halfMilliNs (periodMilli : Int) : Int := roundHalfEvenDiv periodMilli 2

/-- Strip trailing `'0'` from a digit list, keeping at least one digit. -/
def dropTrailingZeros (ds : List Char) : List Char :=
  let r := ds.reverse.dropWhile (fun c => c = '0')
  if r = [] then ['0'] else r.reverse

/-- Python f-string rendering of the non-negative float `milli / 1000`
(e.g. `10.0`, `5.0`, `6.667`): shortest decimal with at least one fractional
digit. -/
def pyFloatRepr (milli : Int) : String :=
  let ip : Int := milli / 1000
  let fr : Nat := (milli % 1000).toNat
  let ds := [Nat.digitChar (fr / 100), Nat.digitChar (fr / 10 % 10), Nat.digitChar (fr % 10)]
  toString ip ++ "." ++ String.mk (dropTrailingZeros ds)

/-! ## Top-level wiring generator (`generate_top_sv_from_cfg`) -/

/-- Signal declarations for one interface (lines 193-200). -/
def declLines (intf : Interface) : List String :=
  (if strTruthy intf.clk ∧ pyLower intf.clk ≠ "nil"
   then ["  logic " ++ intf.clk ++ ";"] else [])
  ++ (match intf.rst with
      | some rst =>
        if strTruthy rst ∧ pyLower rst ≠ "nil" then ["  logic " ++ rst ++ ";"] else []
      | none => [])

/-- Clock generation statements for one interface (lines 204-222): skipped when
the clock or the frequency is missing or `nil`, when `int()` fails on the
frequency, or when the parsed frequency is non-positive. -/
def clockGenLines (intf : Interface) : List String :=
  if ¬ strTruthy intf.clk ∨ pyLower intf.clk = "nil"
      ∨ ¬ strTruthy intf.speed ∨ pyLower intf.speed = "nil" then []
  else
    match pyInt intf.speed with
    | none => []
    | some speed =>
      if speed ≤ 0 then []
      else
        let period_ns := periodMilliNs speed
        let half_period := halfMilliNs period_ns
        ["  // " ++ intf.clk ++ " clock generation at " ++ toString speed
            ++ " MHz (~" ++ pyFloatRepr period_ns ++ "ns)",
         "  initial " ++ intf.clk ++ " = 0;",
         "  always #" ++ pyFloatRepr half_period ++ " " ++ intf.clk ++ " = ~" ++ intf.clk ++ ";\n"]

/-- Reset pulse for one interface (lines 225-246): requires a usable clock,
reset name and reset type; only the literal token `"1"` selects the
active-high pulse shape. -/
def resetLines (intf : Interface) : List String :=
  if ¬ strTruthy intf.clk ∨ pyLower intf.clk = "nil" then []
  else
    match intf.rst with
    | none => []
    | some rst =>
      if ¬ strTruthy rst ∨ pyLower rst = "nil" then []
      else
        match intf.rst_type with
        | none => []
        | some rst_type =>
          if ¬ strTruthy rst_type then []
          else
            let active_high := rst_type = "1"
            let assert_val := if active_high then "1" else "0"
            let deassert_val := if active_high then "0" else "1"
            ["  // " ++ rst ++ " reset pulse using @" ++ intf.clk ++ ", active "
                ++ (if active_high then "high" else "low"),
             "  initial begin",
             "    " ++ rst ++ " = " ++ assert_val ++ ";",
             "    @(posedge " ++ intf.clk ++ ");",
             "    " ++ rst ++ " = " ++ deassert_val ++ ";",
             "  end\n"]

/-- Interface instantiation for one interface (lines 250-254); a name whose
lower-casing is `"nil"` is skipped. -/
def instLines (intf : Interface) : List String :=
  if strTruthy intf.name ∧ pyLower intf.name ≠ "nil" then
    ["  " ++ top_if_type intf.name ++ " " ++ top_pif_inst intf.name
        ++ "();  // TODO: Create " ++ intf.name ++ " interface files"]
  else []

/-- `uvm_config_db` registration for one interface (lines 275-280). -/
def configDbLines (intf : Interface) : List String :=
  if strTruthy intf.name ∧ pyLower intf.name ≠ "nil" then
    ["    uvm_config_db#(virtual " ++ top_if_type intf.name ++ ")::set(null, \"*\", \"vif\", "
        ++ top_pif_inst intf.name ++ ");"]
  else []

/-- All lines of `top.sv` (lines 188-284). -/
def top_sv_lines (config : Config) : List String :=
  let dut_name := config.dut_name.getD "dut"
  let test_name := pyLower dut_name ++ "_base_test"
  ["module top;\n"]
  ++ (config.interfaces.flatMap declLines)
  ++ [""]
  ++ (config.interfaces.flatMap clockGenLines)
  ++ (config.interfaces.flatMap resetLines)
  ++ ["  // Interface Instantiations"]
  ++ (config.interfaces.flatMap instLines)
  ++ [""]
  ++ ["  // DUT instantiation",
      "  " ++ dut_name ++ " u_" ++ pyLower dut_name ++ " (",
      "    // TODO: Connect ports using pif handles ",
      "  );\n"]
  ++ ["  // UVM run_test() call",
      "  initial begin",
      "    run_test(\"" ++ test_name ++ "\");",
      "  end\n"]
  ++ ["  // Passing interfaces to UVM via uvm_config_db",
      "  initial begin"]
  ++ (config.interfaces.flatMap configDbLines)
  ++ ["  end\n",
      "endmodule"]

/-- The f-string rendering of the `num_interfaces` entry: `None` when the key is absent. -/
def pyOptIntRepr : Option Int → String
  | none => "None"
  | some n => toString n

/-- `type_str` of the README reset bullet (line 317). -/
def rstTypeStr : Option String → String
  | some "1" => "active high"
  | some "0" => "active low"
  | _ => "unspecified"

/-- The README summary section written by the top-level generator
(lines 291-336). -/
def top_readme_lines (config : Config) : List String :=
  let dut_name := config.dut_name.getD "dut"
  let intfs := config.interfaces
  ["top.sv generation summary\n",
   "DUT Name             : " ++ dut_name,
   "Number of Interfaces : " ++ pyOptIntRepr config.num_interfaces ++ "\n",
   "top.sv contents:",
   "- `module top;` with DUT `" ++ dut_name ++ "` instantiated"]
  ++ (if intfs.any (fun intf => strTruthy intf.clk) then
        ["- Clock signal declarations and generation:"]
        ++ intfs.flatMap (fun intf =>
            if strTruthy intf.clk ∧ pyLower intf.clk ≠ "nil" then
              ["    • " ++ intf.clk ++ "  ("
                  ++ (if strTruthy intf.speed then intf.speed ++ " MHz" else "default") ++ ")"]
            else [])
      else [])
  ++ (if intfs.any (fun intf => intf.rst.any strTruthy) then
        ["- Reset pulse logic based on @posedge clk:"]
        ++ intfs.flatMap (fun intf =>
            match intf.rst with
            | some rst =>
              if strTruthy rst ∧ strTruthy intf.clk then
                ["    • " ++ rst ++ "  (" ++ rstTypeStr intf.rst_type ++ ") driven by " ++ intf.clk]
              else []
            | none => [])
      else [])
  ++ ["- Interface instantiations:"]
  ++ intfs.flatMap (fun intf =>
      if strTruthy intf.name then
        ["    • " ++ pyLower intf.name ++ "_if " ++ pyLower intf.name ++ "_if_inst();"]
      else [])
  ++ ["- uvm_config_db set() calls to pass virtual interfaces",
      "- run_test(\"" ++ pyLower dut_name ++ "_base_test\")` to launch simulation\n",
      "TODOs for User To code in top.sv:",
      "- Connect interface instances to DUT ports:"]
  ++ intfs.flatMap (fun intf =>
      if strTruthy intf.name then
        ["    • Connect `" ++ pyLower intf.name ++ "_if_inst` to DUT"]
      else [])
  ++ ["- Define SystemVerilog interface files (*.sv)",
      "\n-----------------------------------------------------------"]

/-! ## File-system operations

Each generator performs a sequence of file writes (`open(_, "w")` followed by
`write`) and appends (`open(_, "a")` followed by one or more `write`s, folded
into one append per `with` block); paths are relative to the working
directory.  Console output is kept alongside as a list of printed lines. -/

inductive FileOp where
  | write (path content : String)
  | append (path content : String)
deriving DecidableEq, Repr

/-- The file system: path to content. -/
def FS : Type := String → Option String

/-- Apply one operation (append creates the file when absent, as `"a"` does). -/
def applyOp (fs : FS) : FileOp → FS
  | .write p c => fun q => if q = p then some c else fs q
  | .append p c => fun q => if q = p then some ((fs p).getD "" ++ c) else fs q

/-- Apply operations in order. -/
def applyOps (fs : FS) (ops : List FileOp) : FS := ops.foldl applyOp fs

def readme_path : String := "verif/SIM/README.txt"

def top_sv_path : String := "verif/TOP/top.sv"

/-- The effective DUT stem used by the test, environment and sequence
generators: `config.get("dut_name", "").strip().lower()`. -/
def dutStem (config : Config) : String := pyLower (pyStrip (config.dut_name.getD ""))

/-- Operations of `generate_top_sv_from_cfg`: overwrite `top.sv`, then
overwrite (`open(..., "w")`, line 343) the README summary. -/
def generate_top_sv_ops (config : Config) : List FileOp :=
  [.write top_sv_path (String.intercalate "\n" (top_sv_lines config)),
   .write readme_path (String.intercalate "\n" (top_readme_lines config))]

/-! ## Test generator (`generate_uvm_test`) -/

/-- The raw triple-quoted f-string of the test class (lines 377-413), before
`textwrap.dedent`; tabs and spaces as in the source. -/
def test_sv_raw (test_class env_class seq_class : String) : String :=
  String.intercalate "\n"
    ["\t // ----------------------------------------------------",
     "\t // UVM Test: " ++ test_class,
     "\t // ----------------------------------------------------",
     "\t class " ++ test_class ++ " extends uvm_test;",
     "\t   `uvm_component_utils(" ++ test_class ++ ")",
     "\t ",
     "\t   // Environment handle",
     "\t   " ++ env_class ++ " " ++ env_class ++ "_h;",
     "\t ",
     "\t   function new(string name = \"" ++ test_class ++ "\", uvm_component parent = null);",
     "\t     super.new(name, parent);",
     "\t   endfunction",
     "\t ",
     "\t   virtual function void build_phase(uvm_phase phase);",
     "\t     super.build_phase(phase);",
     "\t  \t" ++ env_class ++ "_h = " ++ env_class ++ "::type_id::create(\"" ++ env_class ++ "_h\", this);",
     "\t   endfunction",
     "\t ",
     "\t   virtual task run_phase(uvm_phase phase);",
     "\t     " ++ seq_class ++ " seq = " ++ seq_class ++ "::type_id::create(\"seq\");",
     "\t\t  `uvm_info(get_full_name(),\"Run_phase started\", UVM_NONE)",
     "\t ",
     "\t     phase.raise_objection(this);",
     "\t ",
     "\t     // TODO: Update sequencer path if not " ++ env_class ++ "_h.sqr",
     "\t     seq.start(" ++ env_class ++ "_h.sqr);",
     "\t ",
     "\t  \tphase.phase_done.set_drain_time(this,1000);",
     "\t  \tphase.drop_objection(this);",
     "",
     "\t  \t`uvm_info(get_full_name(),\"Run_phase End\", UVM_NONE)",
     "\t ",
     "\t   endtask",
     "\t ",
     "\t endclass : " ++ test_class,
     "    "]

/-- The raw README summary f-string of the test generator (lines 422-436),
before `textwrap.dedent`. -/
def test_summary_raw (test_class env_class seq_class : String) : String :=
  String.intercalate "\n"
    ["        ",
     "",
     "        " ++ test_class ++ ".sv Summary",
     "",
     "        Class Structure:",
     "        - class " ++ test_class ++ " extends uvm_test",
     "        - Factory registered using `uvm_component_utils(" ++ test_class ++ ")`",
     "        - build_phase(): creates `" ++ env_class ++ "`",
     "        - run_phase():",
     "            - Creates `" ++ seq_class ++ "`",
     "            - Raises/drops uvm_objection",
     "            - Calls `start()` on `" ++ env_class ++ "_h.sqr`",
     "        ------------------------------------------------------------------------",
     "\t\t"]

/-- `generate_uvm_test`: skips (with a log line, no file) when the DUT stem is
empty; otherwise overwrites the test file and appends its summary to the
README. -/
def generate_uvm_test_out (config : Config) : List FileOp × List String :=
  let dut_name := dutStem config
  if dut_name = "" then
    ([], ["No DUT name found in configuration. Skipping UVM test generation."])
  else
    let test_class := dut_name ++ "_base_test"
    let env_class := dut_name ++ "_env"
    let seq_class := dut_name ++ "_base_seq"
    let test_file_path := "verif/TEST_LIB/" ++ test_class ++ ".sv"
    ([.write test_file_path (dedent (test_sv_raw test_class env_class seq_class)),
      .append readme_path (dedent (test_summary_raw test_class env_class seq_class))],
     ["Generated: " ++ test_file_path,
      "\nRefer to README.txt for a detailed summary of top.sv file:",
      "   → " ++ readme_path,
      "----------------------------------------------------------------------------"])

/-! ## Environment generator (`generate_uvm_env`) -/

/-- The sequence of `f.write` strings composing the environment file
(lines 472-517). -/
def env_parts (config : Config) : List String :=
  let dut_name := dutStem config
  let interfaces := config.interfaces
  let env_class := dut_name ++ "_env"
  let sbd_class_name := dut_name ++ "_sbd"
  let sbd_class_inst_name := sbd_class_name ++ "_h"
  let sbd_inst := sbd_class_name ++ " " ++ sbd_class_inst_name
  ["// ----------------------------------------------------\n",
   "// UVM Environment: " ++ env_class ++ "\n",
   "// ----------------------------------------------------\n",
   "class " ++ env_class ++ " extends uvm_env;\n",
   "\t`uvm_component_utils(" ++ env_class ++ ")\n",
   "\n\t//Agents instantiation\n"]
  ++ interfaces.map (fun intf =>
      "\t" ++ env_agent_class intf.name ++ " " ++ env_agent_inst intf.name ++ ";\n")
  ++ ["\n\t//Scoreboard instantiation\n",
      "\t//" ++ sbd_inst ++ ";\n\n",
      "\tfunction new(string name = \"" ++ env_class ++ "\", uvm_component parent = null);\n",
      "\t\tsuper.new(name, parent);\n",
      "\tendfunction\n\n",
      "\tvirtual function void build_phase(uvm_phase phase);\n",
      "\t\tsuper.build_phase(phase);\n"]
  ++ interfaces.map (fun intf =>
      "\t\t" ++ env_agent_inst intf.name ++ " = " ++ env_agent_class intf.name
        ++ "::type_id::create(\"" ++ env_agent_inst intf.name ++ "\", this);\n")
  ++ ["\t\t//" ++ sbd_class_inst_name ++ " = " ++ sbd_class_name
        ++ "::type_id::create(\"" ++ sbd_class_inst_name ++ "\", this);\n",
      "\tendfunction\n\n",
      "\tvirtual function void connect_phase(uvm_phase phase);\n"]
  ++ interfaces.flatMap (fun intf =>
      ["  \t\t//TODO - Check the SBD connection\n",
       "\t\t//" ++ env_agent_inst intf.name ++ "." ++ pyLower intf.name ++ "_h."
         ++ env_ap_handle intf.name ++ ".connect(" ++ sbd_class_inst_name ++ ".analysis_export);\n"])
  ++ ["\tendfunction\n\n",
      "endclass : " ++ env_class ++ "\n"]

/-- A single quote character, for Python `repr` output. -/
def pySq : String := String.mk ['\x27']

/-- Python `repr` of a plain string (no quotes or escapes inside). -/
def pyReprStr (s : String) : String := pySq ++ s ++ pySq

/-- Python `repr` of a list of plain strings, as rendered by an f-string. -/
def pyReprList (xs : List String) : String :=
  "[" ++ String.intercalate ", " (xs.map pyReprStr) ++ "]"

/-- The raw README summary f-string of the environment generator
(lines 529-547), before `textwrap.dedent`.  The `chr(10).join` line becomes
one entry containing embedded newlines. -/
def env_summary_raw (config : Config) : String :=
  let dut_name := dutStem config
  let interfaces := config.interfaces
  let env_class := dut_name ++ "_env"
  String.intercalate "\n"
    ["        ",
     " " ++ env_class ++ ".sv Summary",
     "",
     " Class Structure:",
     " - class " ++ env_class ++ " extends uvm_env",
     " - Factory registration using `uvm_component_utils`",
     " - One agent per interface: " ++ pyReprList (interfaces.map (fun intf => intf.name)),
     " - One scoreboard instance: sbd",
     " - User need to Implement SBD file manually as of now. Script might be modified in future for SBD generation.",
     "",
     " Instantiated Components:",
     String.intercalate "\n" (interfaces.map (fun intf =>
       "        - " ++ pyLower intf.name ++ "_agent (" ++ pyUpper intf.name ++ " protocol)")),
     " - m_sbd : scoreboard",
     "",
     " TODOs for User:",
     " - check the agent to SBD connection",
     " ------------------------------------------------------------------------",
     "    "]

/-- `generate_uvm_env`: skips (with a log line, no file) when the DUT stem is
empty; otherwise overwrites the env file and appends its summary. -/
def generate_uvm_env_out (config : Config) : List FileOp × List String :=
  let dut_name := dutStem config
  if dut_name = "" then
    ([], ["No DUT name provided. Cannot generate env."])
  else
    let env_class := dut_name ++ "_env"
    let env_file_path := "verif/ENV/" ++ env_class ++ ".sv"
    ([.write env_file_path (String.join (env_parts config)),
      .append readme_path (dedent (env_summary_raw config))],
     ["Generated : " ++ env_file_path,
      "\nRefer to README.txt for a detailed summary of top.sv file:",
      "   → " ++ readme_path,
      "----------------------------------------------------------------------------"])

/-! ## Agent/component generator (`create_full_agent_and_components`) -/

/-- The `components` dict in insertion order (lines 640-642): monitor and
coverage always, driver and sequencer added for master mode. -/
def componentsFor (mode : String) : List (String × String) :=
  [("mon", "uvm_monitor"), ("cov", "uvm_subscriber")]
  ++ (if mode = "M" then [("drv", "uvm_driver"), ("sqr", "uvm_sequencer")] else [])

/-- The agent class file content (lines 600-634); `name` is the normalised
(stripped, lower-cased) interface name. -/
def agent_sv_content (name mode : String) : String :=
  let drv_name := name ++ "_drv"
  let drv_inst := drv_name ++ "_h"
  let sqr_name := name ++ "_sqr"
  let sqr_inst := sqr_name ++ "_h"
  let mon_name := name ++ "_mon"
  let mon_inst := mon_name ++ "_h"
  let cov_name := name ++ "_cov"
  let cov_inst := cov_name ++ "_h"
  let agent_class := name ++ "_agent"
  String.join
    (["// ----------------------------------------------------\n",
      "//UVM agent: " ++ agent_class ++ "\n",
      "//----------------------------------------------------\n",
      "class " ++ agent_class ++ " extends uvm_agent;\n",
      "`uvm_component_utils(" ++ agent_class ++ ")\n\n",
      "//Sub-Component Instantiation\n"]
     ++ (if mode = "M" then
           [drv_name ++ " " ++ drv_inst ++ ";\n",
            sqr_name ++ " " ++ sqr_inst ++ ";\n"]
         else [])
     ++ [mon_name ++ " " ++ mon_inst ++ ";\n",
         cov_name ++ " " ++ cov_inst ++ ";\n\n",
         "function new(string name = \"" ++ agent_class ++ "\", uvm_component parent = null);\n",
         "  super.new(name, parent);\n",
         "endfunction\n\n",
         "virtual function void build_phase(uvm_phase phase);\n",
         "  super.build_phase(phase);\n",
         "  " ++ mon_inst ++ " = " ++ mon_name ++ "::type_id::create(\"" ++ mon_inst ++ "\", this);\n",
         "  " ++ cov_inst ++ " = " ++ cov_name ++ "::type_id::create(\"" ++ cov_inst ++ "\", this);\n"]
     ++ (if mode = "M" then
           ["  " ++ drv_inst ++ " = " ++ drv_name ++ "::type_id::create(\"" ++ drv_inst ++ "\", this);\n",
            "  " ++ sqr_inst ++ " = " ++ sqr_name ++ "::type_id::create(\"" ++ sqr_inst ++ "\", this);\n"]
         else [])
     ++ ["endfunction\n\n",
         "virtual function void connect_phase(uvm_phase phase);\n",
         "  super.connect_phase(phase);\n"]
     ++ (if mode = "M" then
           ["  " ++ drv_inst ++ ".seq_item_port.connect(" ++ sqr_inst ++ ".seq_item_export);\n"]
         else [])
     ++ ["  " ++ mon_inst ++ "." ++ name ++ "_ap_h.connect(" ++ cov_inst ++ ".analysis_export);\n",
         "endfunction\n\n",
         "endclass : " ++ agent_class ++ "\n"])

/-- Driver stub body (lines 654-681). -/
def drv_sv_body (name base_class : String) : String :=
  let class_name := name ++ "_drv"
  String.join
    ["class " ++ class_name ++ " extends " ++ base_class ++ "#(" ++ name ++ "_tx);\n",
     "`uvm_component_utils(" ++ class_name ++ ")\n\n",
     "virtual " ++ name ++ "_if " ++ name ++ "_vif;\n\n",
     "function new(string name = \"" ++ class_name ++ "\", uvm_component parent = null);\n",
     "  super.new(name, parent);\n",
     "endfunction : new\n\n",
     "virtual function void build_phase(uvm_phase phase);\n",
     "  super.build_phase(phase);\n",
     "  if(!uvm_config_db#(virtual " ++ name ++ "_if)::get(this,\"\",\"vif\"," ++ name ++ "_vif))\n",
     "     `uvm_error(get_full_name(),\"FAILED TO RETRIVE VIF HANDLE FROM CONFIG_DB\")\n",
     "endfunction : build_phase\n\n",
     "virtual task run_phase(uvm_phase phase);\n",
     "`uvm_info(get_full_name(),\"run_phase START\",UVM_NONE)\n",
     "  forever begin\n",
     "    seq_item_port.get_next_item(req);\n",
     "    //req.print();\n",
     "    drive_tx(req);\n",
     "    seq_item_port.item_done();\n",
     "  end\n",
     "endtask : run_phase\n\n",
     "task drive_tx(" ++ name ++ "_tx tx);\n",
     "  // TODO: Implement " ++ name ++ " specific drive logic functionality\n",
     "endtask : drive_tx\n\n"]

/-- Monitor stub body (lines 683-708). -/
def mon_sv_body (name base_class : String) : String :=
  let class_name := name ++ "_mon"
  String.join
    ["class " ++ class_name ++ " extends " ++ base_class ++ ";\n",
     "`uvm_component_utils(" ++ class_name ++ ")\n\n",
     "virtual " ++ name ++ "_if " ++ name ++ "_vif;\n\n",
     "uvm_analysis_port#(" ++ name ++ "_tx) " ++ name ++ "_ap_h;\n\n",
     name ++ "_tx tx;\n\n",
     "function new(string name = \"" ++ class_name ++ "\", uvm_component parent = null);\n",
     "  super.new(name, parent);\n",
     "endfunction : new\n\n",
     "virtual function void build_phase(uvm_phase phase);\n",
     "  super.build_phase(phase);\n",
     "  tx = " ++ name ++ "_tx::type_id::create(\"tx\");\n",
     "  " ++ name ++ "_ap_h = new(\"" ++ name ++ "_ap_h\",this);\n",
     "  if(!uvm_config_db#(virtual " ++ name ++ "_if)::get(this,\"\",\"vif\"," ++ name ++ "_vif))\n",
     "     `uvm_error(get_full_name(),\"FAILED TO RETRIVE VIF HANDLE FROM CONFIG_DB\")\n",
     "endfunction : build_phase\n\n",
     "virtual task run_phase(uvm_phase phase);\n",
     "`uvm_info(get_full_name(),\"run_phase START\",UVM_NONE)\n",
     "  forever begin\n",
     "    //TODO: Implement " ++ name ++ " specific mon logic functionality\n",
     "    " ++ name ++ "_ap_h.write(tx);\n",
     "  end\n",
     "endtask : run_phase\n\n"]

/-- Coverage stub body (lines 710-727). -/
def cov_sv_body (name base_class : String) : String :=
  let class_name := name ++ "_cov"
  String.join
    ["class " ++ class_name ++ " extends " ++ base_class ++ "#(" ++ name ++ "_tx);\n",
     "`uvm_component_utils(" ++ class_name ++ ")\n\n",
     name ++ "_tx tx;\n\n",
     "covergroup cg;\n",
     "  //TODO - Implement protocol specific FC\n\n",
     "endgroup\n\n",
     "function new(string name = \"" ++ class_name ++ "\", uvm_component parent = null);\n",
     "  super.new(name, parent);\n",
     "  cg = new();\n",
     "endfunction : new\n\n",
     "virtual function void write(T t);\n",
     "  $cast(tx,t);\n",
     "  cg.sample();\n",
     "endfunction : write\n\n"]

/-- One sub-component file (lines 644-729): the sequencer is a one-line
`typedef`; the others are class stubs closed by `endclass`. -/
def comp_sv_content (name suffix base_class : String) : String :=
  let class_name := name ++ "_" ++ suffix
  "// ----------------------------------------------------\n"
  ++ "//UVM " ++ suffix ++ ": " ++ class_name ++ "\n"
  ++ "//----------------------------------------------------\n"
  ++ (if suffix = "sqr" then
        "typedef " ++ base_class ++ "#(" ++ name ++ "_tx) " ++ class_name ++ ";"
      else
        (if suffix = "drv" then drv_sv_body name base_class else "")
        ++ (if suffix = "mon" then mon_sv_body name base_class else "")
        ++ (if suffix = "cov" then cov_sv_body name base_class else "")
        ++ "endclass : " ++ class_name ++ "\n")

/-- Operations performed for one interface inside the agent loop
(lines 576-732): nothing when the normalised name is empty or the normalised
mode is neither `M` nor `S`; otherwise the agent file, a README line, and one
file plus README line per sub-component. -/
def agent_intf_ops (intf : Interface) : List FileOp :=
  let name := agent_norm intf.name
  let mode := pyUpper (pyStrip intf.mode)
  if name = "" ∨ (mode ≠ "M" ∧ mode ≠ "S") then []
  else
    let agent_class := name ++ "_agent"
    let agent_dir := "verif/ENV/AGENTS/" ++ name
    [.write (agent_dir ++ "/" ++ agent_class ++ ".sv") (agent_sv_content name mode),
     .append readme_path (" -" ++ agent_class ++ ".sv\n")]
    ++ (componentsFor mode).flatMap (fun comp =>
        let class_name := name ++ "_" ++ comp.1
        [.write (agent_dir ++ "/" ++ class_name ++ ".sv") (comp_sv_content name comp.1 comp.2),
         .append readme_path ("   └── " ++ class_name ++ ".sv (extends " ++ comp.2 ++ ")\n")])

/-- The trailing TODO block appended to the README (lines 734-742). -/
def agent_todo_block : String :=
  String.join
    ["TODO for User:\n",
     "- In Driver file\n",
     "-- Implement Protocol specific drive logic functionality\n",
     "- In Cov file\n",
     "-- Implement protocol specific FC\n",
     "- In Mon file\n",
     "-- Implement protocol specific mon logic functionality\n",
     "---------------------------------------------------------------------------\n"]

/-- `create_full_agent_and_components`: README header, per-interface files and
README lines, then the TODO block (all README writes in append mode). -/
def create_full_agent_ops (config : Config) : List FileOp :=
  [.append readme_path "\n\nAgent & Component Summary\n"]
  ++ config.interfaces.flatMap agent_intf_ops
  ++ [.append readme_path agent_todo_block]

/-! ## Sequence generator (`generate_base_seq`) -/

/-- The base sequence file content (lines 774-791). -/
def seq_sv_content (seq_class : String) : String :=
  String.join
    ["// ----------------------------------------------------\n",
     "//UVM sequence: " ++ seq_class ++ "\n",
     "//----------------------------------------------------\n",
     "class " ++ seq_class ++ " extends uvm_sequence;\n",
     "`uvm_object_utils(" ++ seq_class ++ ")\n\n",
     "function new(string name = \"" ++ seq_class ++ "\");\n",
     "  super.new(name);\n",
     "endfunction\n\n",
     "virtual task body();\n",
     "  `uvm_info(get_type_name(), \"Starting " ++ seq_class ++ "\", UVM_NONE)\n",
     "  //Randomizing req\n",
     "  `uvm_do(req)\n",
     "endtask\n\n",
     "endclass : " ++ seq_class ++ "\n"]

/-- The README summary of the sequence generator (lines 797-806; a plain
f-string, no dedent). -/
def seq_summary (seq_class : String) : String :=
  String.intercalate "\n"
    ["\n" ++ seq_class ++ ".sv Summary",
     "- Class " ++ seq_class ++ " extends uvm_sequence",
     "- Factory registration with `uvm_object_utils`",
     "- new() constructor",
     "- body() includes:",
     "   - `uvm_info` to indicate start of sequence",
     "   - `uvm_do macro which allows tool to randomize the tx fields",
     "- TODO: Define sequence item type (req) and if needed use uuvm_do_with instead of uvm_do",
     "---------------------------------------------------------------------------------------------",
     ""]

/-- `generate_base_seq`: skips (with a log line, no file) when the DUT stem is
empty; otherwise overwrites the sequence file and appends its summary. -/
def generate_base_seq_out (config : Config) : List FileOp × List String :=
  let dut_name := dutStem config
  if dut_name = "" then
    ([], ["No DUT name found in config. Skipping base sequence generation."])
  else
    let seq_class := dut_name ++ "_base_seq"
    let seq_file := "verif/SEQ_LIB/" ++ seq_class ++ ".sv"
    ([.write seq_file (seq_sv_content seq_class),
      .append readme_path (seq_summary seq_class)],
     ["Generated base sequence: " ++ seq_file,
      "\nRefer to README.txt for a detailed summary of agents and its components file:",
      "   → " ++ readme_path,
      "----------------------------------------------------------------------------"])

/-! ## The whole pipeline -/

/-- All file operations of one script run, in execution order. -/
def pipeline_ops (config : Config) : List FileOp :=
  generate_top_sv_ops config
  ++ (generate_uvm_test_out config).1
  ++ (generate_uvm_env_out config).1
  ++ create_full_agent_ops config
  ++ (generate_base_seq_out config).1

/-- One run of the generation pipeline over a file system. -/
def run_pipeline (config : Config) (fs : FS) : FS :=
  applyOps fs (pipeline_ops config)

/-! ## Supporting lemmas -/

theorem dropWhile_self (p : Char → Bool) (l : List Char) :
    (l.dropWhile p).dropWhile p = l.dropWhile p := by
  induction l with
  | nil => rfl
  | cons a t ih =>
    by_cases h : p a
    · simp [List.dropWhile_cons, h, ih]
    · simp [List.dropWhile_cons, h]

theorem dropWhile_is_sfx (p : Char → Bool) :
    ∀ l : List Char, ∃ pre, pre ++ l.dropWhile p = l := by
  intro l
  induction l with
  | nil => exact ⟨[], rfl⟩
  | cons a t ih =>
    by_cases h : p a
    · obtain ⟨pre, hp⟩ := ih
      exact ⟨a :: pre, by simp [List.dropWhile_cons, h, hp]⟩
    · exact ⟨[], by simp [List.dropWhile_cons, h]⟩

theorem dropWhile_head_false (p : Char → Bool) (l : List Char) :
    l.dropWhile p = [] ∨ ∃ h t, l.dropWhile p = h :: t ∧ p h = false := by
  induction l with
  | nil => exact Or.inl rfl
  | cons a t ih =>
    by_cases h : p a
    · simpa [List.dropWhile_cons, h] using ih
    · exact Or.inr ⟨a, t, by simp [List.dropWhile_cons, h], by simp [h]⟩

theorem pyStripList_idem (l : List Char) : pyStripList (pyStripList l) = pyStripList l := by
  unfold pyStripList
  set A := l.dropWhile pyWs with hA
  set C := A.reverse.dropWhile pyWs with hC
  have step1 : C.reverse.dropWhile pyWs = C.reverse := by
    obtain ⟨pre, hpre⟩ := dropWhile_is_sfx pyWs A.reverse
    have hApre : C.reverse ++ pre.reverse = A := by
      have := congrArg List.reverse hpre
      simpa using this
    rcases dropWhile_head_false pyWs l with hnil | ⟨h, t, hht, hph⟩
    · have hA0 : A = [] := hA.trans hnil
      have hC0 : C.reverse = [] := by
        rcases List.append_eq_nil.mp (hApre.trans hA0) with ⟨h1, -⟩
        exact h1
      rw [hC0]
      rfl
    · have hAht : A = h :: t := hA.trans hht
      match hCr : C.reverse with
      | [] => rfl
      | x :: xs =>
        have hcons : x :: (xs ++ pre.reverse) = h :: t := by
          have h2 := hApre
          rw [hCr] at h2
          simpa using h2.trans hAht
        have hx : x = h := (List.cons.injEq _ _ _ _ ▸ hcons).1
        simp [List.dropWhile_cons, hx, hph]
  have step2 : (C.reverse.reverse).dropWhile pyWs = C := by
    simp only [List.reverse_reverse, hC]
    exact dropWhile_self pyWs A.reverse
  rw [step1, step2]

theorem pyStrip_idem (s : String) : pyStrip (pyStrip s) = pyStrip s :=
  congrArg String.mk (pyStripList_idem s.data)

theorem mem_cleanRow {x : String} {row : List String} (hx : x ∈ cleanRow row) :
    pyStrip x = x ∧ x ≠ "" := by
  unfold cleanRow at hx
  have h1 := List.of_mem_filter hx
  have h2 := List.mem_of_mem_filter hx
  obtain ⟨t, _, ht⟩ := List.mem_map.mp h2
  refine ⟨?_, by simpa using h1⟩
  rw [← ht, pyStrip_idem]

/-- `parseRow` either leaves `dut_name` unchanged or sets it to a cell of the
cleaned row. -/
theorem parseRow_dut (config : Config) (rawRow : List String) (c : Config)
    (h : parseRow config rawRow = .ok c) :
    c.dut_name = config.dut_name ∨ ∃ v, v ∈ cleanRow rawRow ∧ c.dut_name = some v := by
  unfold parseRow at h
  revert h
  match hrow : cleanRow rawRow with
  | [] => intro h; exact Or.inl (by cases h; rfl)
  | first :: rest =>
    simp only
    split
    · match rest with
      | v :: _ =>
        intro h
        cases h
        exact Or.inr ⟨v, by simp [hrow], rfl⟩
      | [] => intro h; cases h; exact Or.inl rfl
    · split
      · match rest with
        | v :: _ =>
          cases hpy : pyInt v with
          | some n => simp only [hpy]; intro h; cases h; exact Or.inl rfl
          | none => simp only [hpy]; intro h; cases h
        | [] => intro h; cases h; exact Or.inl rfl
      · split
        · intro h; cases h; exact Or.inl rfl
        · intro h; cases h; exact Or.inl rfl

/-- Along `parseRows`, a set `dut_name` is always a stripped non-empty cell. -/
theorem parseRows_dut :
    ∀ (rows : List (List String)) (config c : Config),
      parseRows config rows = .ok c →
      (∀ s, config.dut_name = some s → pyStrip s = s ∧ s ≠ "") →
      ∀ s, c.dut_name = some s → pyStrip s = s ∧ s ≠ "" := by
  intro rows
  induction rows with
  | nil =>
    intro config c h hc
    cases h
    exact hc
  | cons row rest ih =>
    intro config c h hc
    unfold parseRows at h
    revert h
    match hrow : parseRow config row with
    | .error e => intro h; cases h
    | .ok c' =>
      intro h
      refine ih c' c h ?_
      intro s hs
      rcases parseRow_dut config row c' hrow with heq | ⟨v, hv, hset⟩
      · exact hc s (heq ▸ hs)
      · rw [hset] at hs
        cases hs
        exact mem_cleanRow hv

/-- `parseRow` appends exactly the record of `rowIntf` to `interfaces`. -/
theorem parseRow_interfaces (config : Config) (rawRow : List String) (c : Config)
    (h : parseRow config rawRow = .ok c) :
    c.interfaces = config.interfaces ++ (rowIntf rawRow).toList := by
  unfold parseRow at h
  unfold rowIntf
  revert h
  match hrow : cleanRow rawRow with
  | [] => intro h; cases h; simp
  | first :: rest =>
    simp only
    split
    · rename_i hkey
      have hni : ¬ rowKeyOf first = "INTF" := by
        rw [hkey]
        decide
      match rest with
      | v :: _ => intro h; cases h; simp [hni]
      | [] => intro h; cases h; simp [hni]
    · split
      · rename_i hkey
        have hni : ¬ rowKeyOf first = "INTF" := by
          rw [hkey]
          decide
        match rest with
        | v :: _ =>
          cases hpy : pyInt v with
          | some n => simp only [hpy]; intro h; cases h; simp [hni]
          | none => simp only [hpy]; intro h; cases h
        | [] => intro h; cases h; simp [hni]
      · split
        · rename_i hintf
          intro h; cases h; simp [hintf.1, hintf.2]
        · rename_i hintf
          intro h
          cases h
          simp

/-- Folding the parser accumulates exactly the `rowIntf` records, in order. -/
theorem parseRows_interfaces :
    ∀ (rows : List (List String)) (config c : Config),
      parseRows config rows = .ok c →
      c.interfaces = config.interfaces ++ rows.filterMap rowIntf := by
  intro rows
  induction rows with
  | nil =>
    intro config c h
    cases h
    simp
  | cons row rest ih =>
    intro config c h
    unfold parseRows at h
    revert h
    match hrow : parseRow config row with
    | .error e => intro h; cases h
    | .ok c' =>
      intro h
      have h1 := parseRow_interfaces config row c' hrow
      have h2 := ih c' c h
      rw [h2, h1]
      match hri : rowIntf row with
      | some intf => simp [List.filterMap_cons, hri]
      | none => simp [List.filterMap_cons, hri]

/-- All append operations in a list target path `p`. -/
def appendsOnlyTo (p : String) : List FileOp → Prop
  | [] => True
  | .write _ _ :: rest => appendsOnlyTo p rest
  | .append q _ :: rest => q = p ∧ appendsOnlyTo p rest

theorem appendsOnlyTo_append {p : String} {xs ys : List FileOp}
    (hx : appendsOnlyTo p xs) (hy : appendsOnlyTo p ys) : appendsOnlyTo p (xs ++ ys) := by
  induction xs with
  | nil => exact hy
  | cons op rest ih =>
    cases op with
    | write q c => exact ih hx
    | append q c => exact ⟨hx.1, ih hx.2⟩

theorem appendsOnlyTo_flatMap {p : String} {α : Type} {l : List α} {f : α → List FileOp}
    (h : ∀ a ∈ l, appendsOnlyTo p (f a)) : appendsOnlyTo p (l.flatMap f) := by
  induction l with
  | nil => trivial
  | cons a rest ih =>
    rw [List.flatMap_cons]
    exact appendsOnlyTo_append (h a (by simp)) (ih (fun b hb => h b (by simp [hb])))

/-- If two file systems agree on the only path that is appended to, applying
the same operations makes them agree everywhere they were touched, and leaves
them both unchanged elsewhere. -/
theorem applyOps_agree (p : String) :
    ∀ (ops : List FileOp) (fs₁ fs₂ : FS), appendsOnlyTo p ops → fs₁ p = fs₂ p →
      ∀ q, applyOps fs₁ ops q = applyOps fs₂ ops q ∨
        (applyOps fs₁ ops q = fs₁ q ∧ applyOps fs₂ ops q = fs₂ q) := by
  intro ops
  induction ops with
  | nil => intro fs₁ fs₂ _ _ q; exact Or.inr ⟨rfl, rfl⟩
  | cons op rest ih =>
    intro fs₁ fs₂ hao hp q
    cases op with
    | write r c =>
      have hp' : applyOp fs₁ (.write r c) p = applyOp fs₂ (.write r c) p := by
        simp only [applyOp]
        split
        · rfl
        · exact hp
      have step : applyOps fs₁ (.write r c :: rest) q = applyOps (applyOp fs₁ (.write r c)) rest q := rfl
      rcases ih (applyOp fs₁ (.write r c)) (applyOp fs₂ (.write r c)) hao hp' q with h | ⟨h1, h2⟩
      · exact Or.inl h
      · by_cases hq : q = r
        · refine Or.inl ?_
          rw [step, h1]
          rw [show applyOps fs₂ (.write r c :: rest) q = applyOps (applyOp fs₂ (.write r c)) rest q from rfl, h2]
          simp [applyOp, hq]
        · refine Or.inr ?_
          constructor
          · rw [step, h1]
            simp [applyOp, hq]
          · rw [show applyOps fs₂ (.write r c :: rest) q = applyOps (applyOp fs₂ (.write r c)) rest q from rfl, h2]
            simp [applyOp, hq]
    | append r c =>
      obtain ⟨hr, hao'⟩ := hao
      subst hr
      have hp' : applyOp fs₁ (.append r c) r = applyOp fs₂ (.append r c) r := by
        simp [applyOp, hp]
      rcases ih (applyOp fs₁ (.append r c)) (applyOp fs₂ (.append r c)) hao' hp' q with h | ⟨h1, h2⟩
      · exact Or.inl h
      · by_cases hq : q = r
        · refine Or.inl ?_
          rw [show applyOps fs₁ (.append r c :: rest) q = applyOps (applyOp fs₁ (.append r c)) rest q from rfl, h1]
          rw [show applyOps fs₂ (.append r c :: rest) q = applyOps (applyOp fs₂ (.append r c)) rest q from rfl, h2]
          rw [hq]
          exact hp'
        · refine Or.inr ?_
          constructor
          · rw [show applyOps fs₁ (.append r c :: rest) q = applyOps (applyOp fs₁ (.append r c)) rest q from rfl, h1]
            simp [applyOp, hq]
          · rw [show applyOps fs₂ (.append r c :: rest) q = applyOps (applyOp fs₂ (.append r c)) rest q from rfl, h2]
            simp [applyOp, hq]

theorem agent_intf_ops_appendsOnly (intf : Interface) :
    appendsOnlyTo readme_path (agent_intf_ops intf) := by
  simp only [agent_intf_ops]
  split
  · trivial
  · refine appendsOnlyTo_append (by exact ⟨rfl, trivial⟩) ?_
    exact appendsOnlyTo_flatMap (fun comp _ => ⟨rfl, trivial⟩)

/-- After the two leading writes of the top-level generator, the rest of the
pipeline appends only to the README. -/
theorem pipeline_tail_appendsOnly (config : Config) :
    appendsOnlyTo readme_path
      ((generate_uvm_test_out config).1 ++ (generate_uvm_env_out config).1
        ++ create_full_agent_ops config ++ (generate_base_seq_out config).1) := by
  refine appendsOnlyTo_append (appendsOnlyTo_append (appendsOnlyTo_append ?_ ?_) ?_) ?_
  · simp only [generate_uvm_test_out]
    split
    · trivial
    · exact ⟨rfl, trivial⟩
  · simp only [generate_uvm_env_out]
    split
    · trivial
    · exact ⟨rfl, trivial⟩
  · unfold create_full_agent_ops
    refine appendsOnlyTo_append (appendsOnlyTo_append (by exact ⟨rfl, trivial⟩) ?_) (by exact ⟨rfl, trivial⟩)
    exact appendsOnlyTo_flatMap (fun intf _ => agent_intf_ops_appendsOnly intf)
  · simp only [generate_base_seq_out]
    split
    · trivial
    · exact ⟨rfl, trivial⟩

/-- The pipeline operation list, with the two leading README-establishing
writes exposed. -/
theorem pipeline_ops_shape (config : Config) :
    pipeline_ops config =
      FileOp.write top_sv_path (String.intercalate "\n" (top_sv_lines config))
      :: FileOp.write readme_path (String.intercalate "\n" (top_readme_lines config))
      :: ((generate_uvm_test_out config).1 ++ (generate_uvm_env_out config).1
            ++ create_full_agent_ops config ++ (generate_base_seq_out config).1) := by
  simp [pipeline_ops, generate_top_sv_ops]

/-- C2 (amended): running the full generation pipeline twice in sequence on
the same input and an unmodified output tree leaves every per-artifact file
AND the summary document with the same content as after one run, because the
summary is opened in write (truncate) mode at its first use within a run (by
the top-level generator, line 343) and every generator thereafter appends to
it, so each run rebuilds the summary from scratch. -/
theorem run_pipeline_idem (config : Config) (fs : FS) :
    run_pipeline config (run_pipeline config fs) = run_pipeline config fs := by
  funext q
  set fs₁ := run_pipeline config fs with hfs₁
  show applyOps fs₁ (pipeline_ops config) q = fs₁ q
  rw [pipeline_ops_shape config]
  set T := String.intercalate "\n" (top_sv_lines config)
  set R := String.intercalate "\n" (top_readme_lines config)
  set rest := (generate_uvm_test_out config).1 ++ (generate_uvm_env_out config).1
      ++ create_full_agent_ops config ++ (generate_base_seq_out config).1 with hrest
  set g₁ := applyOp (applyOp fs₁ (.write top_sv_path T)) (.write readme_path R) with hg₁
  set g₀ := applyOp (applyOp fs (.write top_sv_path T)) (.write readme_path R) with hg₀
  have hstep₁ : applyOps fs₁ (FileOp.write top_sv_path T :: FileOp.write readme_path R :: rest) q
      = applyOps g₁ rest q := rfl
  have hstep₀ : fs₁ q = applyOps g₀ rest q := by
    rw [hfs₁]
    show applyOps fs (pipeline_ops config) q = _
    rw [pipeline_ops_shape config]
    rfl
  have hRm : g₁ readme_path = g₀ readme_path := by
    simp [hg₁, hg₀, applyOp]
  have hcover : appendsOnlyTo readme_path rest := pipeline_tail_appendsOnly config
  rw [hstep₁, hstep₀]
  rcases applyOps_agree readme_path rest g₁ g₀ hcover hRm q with h | ⟨h1, h0⟩
  · exact h
  · rw [h1, h0]
    by_cases hq1 : q = readme_path
    · rw [hq1]
      exact hRm
    · by_cases hq2 : q = top_sv_path
      · simp [hg₁, hg₀, applyOp, hq1, hq2]
      · have e₁ : g₁ q = fs₁ q := by simp [hg₁, applyOp, hq1, hq2]
        have e₀ : g₀ q = fs q := by simp [hg₀, applyOp, hq1, hq2]
        rw [e₁, e₀]
        rw [hstep₀, h0, e₀]

/-! ## Claims -/

/-- C1: for every interface record (whose name, coming from the parser, is
whitespace-stripped), the identifier strings derived from the interface name
by the top-level, environment, agent/component and sequence generators are
byte-identical across all generators: each generator that derives one of
agent / drv / sqr / mon / cov / if / tx / ap_h / vif produces exactly the
lower-cased name followed by the fixed suffix (the sequence generator derives
no per-interface identifier). -/
theorem derived_identifiers_consistent (name : String) (h : pyStrip name = name) :
    (env_agent_class name = agent_agent_class name
      ∧ agent_agent_class name = pyLower name ++ "_agent")
    ∧ (top_if_type name = agent_if_type name
      ∧ agent_if_type name = pyLower name ++ "_if")
    ∧ (env_ap_handle name = agent_ap_handle name
      ∧ agent_ap_handle name = pyLower name ++ "_ap_h")
    ∧ agent_drv_name name = pyLower name ++ "_drv"
    ∧ agent_sqr_name name = pyLower name ++ "_sqr"
    ∧ agent_mon_name name = pyLower name ++ "_mon"
    ∧ agent_cov_name name = pyLower name ++ "_cov"
    ∧ agent_tx_type name = pyLower name ++ "_tx"
    ∧ agent_vif_handle name = pyLower name ++ "_vif" := by
  unfold env_agent_class agent_agent_class top_if_type agent_if_type env_ap_handle
    agent_ap_handle agent_drv_name agent_sqr_name agent_mon_name agent_cov_name
    agent_tx_type agent_vif_handle agent_norm
  rw [h]
  exact ⟨⟨rfl, rfl⟩, ⟨rfl, rfl⟩, ⟨rfl, rfl⟩, rfl, rfl, rfl, rfl, rfl, rfl⟩

/-- Witness for C1 at the concrete interface name `i2c`. -/
theorem derived_identifiers_consistent_witness :
    pyStrip "i2c" = "i2c" ∧ env_agent_class "i2c" = agent_agent_class "i2c"
      ∧ agent_tx_type "i2c" = pyLower "i2c" ++ "_tx" :=
  ⟨by decide, (derived_identifiers_consistent "i2c" (by decide)).1.1,
    (derived_identifiers_consistent "i2c" (by decide)).2.2.2.2.2.2.2.1⟩

/-- C2 counterexample: on the empty configuration over an empty output tree,
the summary after two runs equals the summary after one run and is non-empty,
hence it is not doubled as the claim states. -/
def c2_fs0 : FS := fun _ => none

def c2_readme_once : String :=
  ((run_pipeline {} c2_fs0) readme_path).getD ""

set_option maxRecDepth 10000 in
/-- C2 counterexample: re-running the pipeline does not double the summary
document.  (The per-artifact half of the claim holds; the doubling half is
what fails.) -/
theorem summary_not_doubled :
    run_pipeline {} c2_fs0 readme_path = some c2_readme_once
    ∧ run_pipeline {} (run_pipeline {} c2_fs0) readme_path = some c2_readme_once
    ∧ c2_readme_once ≠ ""
    ∧ run_pipeline {} (run_pipeline {} c2_fs0) readme_path
        ≠ some (c2_readme_once ++ c2_readme_once) := by
  refine ⟨by decide, by decide, by decide, by decide⟩

/-- The parse result of the C3 failing input: an `INTF` row whose sixth field
is `"r1,active_high"`. -/
def c3_intf : Interface :=
  { name := "i2c", mode := "M", speed := "100", clk := "c1",
    rst := some "r1", rst_type := some "active_high" }

/-- C3: evaluation at the failing input.  The script header documents
`RstType: active_high / active_low`, and the reset-logic comment defines
active-high as `rst = 1; @(posedge clk); rst = 0;`.  But the parser stores the
polarity token verbatim (line 115) and the generator treats only the literal
`"1"` as active-high (line 237), so the documented token `active_high` itself
produces the reversed, active-low pulse — the code contradicts its own
documentation. -/
theorem polarity_token_yields_low_pulse :
    read_interface_csv [["INTF", "i2c", "M", "100", "c1", "r1,active_high"]]
      = .ok { interfaces := [c3_intf] }
    ∧ resetLines c3_intf =
        ["  // r1 reset pulse using @c1, active low",
         "  initial begin",
         "    r1 = 0;",
         "    @(posedge c1);",
         "    r1 = 1;",
         "  end\n"] :=
  ⟨rfl, by decide⟩

/-- C4: when the configuration has no `dut_name`, the test, environment and
sequence generators each log a skip message and write no file, while the
top-level generator still writes its artifact with the fallback stem `dut`
(instantiating `dut` and calling `run_test("dut_base_test")`).  The second
conjunct shows the parenthetical "empty after stripping" case is unreachable:
any `dut_name` the parser sets is a stripped, non-empty cell. -/
theorem missing_dut_name_behavior :
    (∀ config : Config, config.dut_name = none →
      (generate_uvm_test_out config).1 = []
      ∧ (generate_uvm_test_out config).2
          = ["No DUT name found in configuration. Skipping UVM test generation."]
      ∧ (generate_uvm_env_out config).1 = []
      ∧ (generate_uvm_env_out config).2 = ["No DUT name provided. Cannot generate env."]
      ∧ (generate_base_seq_out config).1 = []
      ∧ (generate_base_seq_out config).2
          = ["No DUT name found in config. Skipping base sequence generation."]
      ∧ (∃ c, FileOp.write top_sv_path c ∈ generate_top_sv_ops config)
      ∧ "  dut u_dut (" ∈ top_sv_lines config
      ∧ "    run_test(\"dut_base_test\");" ∈ top_sv_lines config)
    ∧ (∀ (rows : List (List String)) (config : Config) (s : String),
        read_interface_csv rows = .ok config →
        config.dut_name = some s → pyStrip s = s ∧ s ≠ "") := by
  constructor
  · intro config h
    have hstem : dutStem config = "" := by
      rw [dutStem, h]
      rfl
    refine ⟨?_, ?_, ?_, ?_, ?_, ?_, ?_, ?_, ?_⟩
    · simp [generate_uvm_test_out, hstem]
    · simp [generate_uvm_test_out, hstem]
    · simp [generate_uvm_env_out, hstem]
    · simp [generate_uvm_env_out, hstem]
    · simp [generate_base_seq_out, hstem]
    · simp [generate_base_seq_out, hstem]
    · exact ⟨String.intercalate "\n" (top_sv_lines config), List.mem_cons_self _ _⟩
    · have h9 : "  dut u_dut (" ∈
          ["  // DUT instantiation", "  " ++ "dut" ++ " u_" ++ pyLower "dut" ++ " (",
           "    // TODO: Connect ports using pif handles ", "  );\n"] := by decide
      simp only [top_sv_lines, h, Option.getD_none, List.append_assoc]
      exact List.mem_append_right _ (List.mem_append_right _ (List.mem_append_right _
        (List.mem_append_right _ (List.mem_append_right _ (List.mem_append_right _
          (List.mem_append_right _ (List.mem_append_right _ (List.mem_append_left _ h9))))))))
    · have h10 : "    run_test(\"dut_base_test\");" ∈
          ["  // UVM run_test() call", "  initial begin",
           "    run_test(\"" ++ (pyLower "dut" ++ "_base_test") ++ "\");", "  end\n"] := by decide
      simp only [top_sv_lines, h, Option.getD_none, List.append_assoc]
      exact List.mem_append_right _ (List.mem_append_right _ (List.mem_append_right _
        (List.mem_append_right _ (List.mem_append_right _ (List.mem_append_right _
          (List.mem_append_right _ (List.mem_append_right _ (List.mem_append_right _
            (List.mem_append_left _ h10)))))))))
  · intro rows config s h hds
    refine parseRows_dut rows {} config h ?_ s hds
    intro s' hs'
    simp at hs'

/-- Witness for C4 on the empty configuration (no `dut_name`) and on a parse
of a concrete `DUT_NAME` row. -/
theorem missing_dut_name_behavior_witness :
    ((generate_uvm_test_out {}).1 = [] ∧ "  dut u_dut (" ∈ top_sv_lines {})
    ∧ (pyStrip "usb" = "usb" ∧ "usb" ≠ "") :=
  ⟨⟨(missing_dut_name_behavior.1 {} rfl).1,
    (missing_dut_name_behavior.1 {} rfl).2.2.2.2.2.2.2.1⟩,
   missing_dut_name_behavior.2 [["DUT_NAME", "usb"]]
     { dut_name := some "usb", num_interfaces := none, interfaces := [] } "usb" rfl rfl⟩

/-- C5: an interface whose mode normalises to neither `M` nor `S` gets no
agent file and no sub-component file from the agent/component generator
(silent skip: its per-interface operation list is empty), while the
environment generator still declares and instantiates the agent handle
`<name>_agent_h` for it. -/
theorem unrecognized_mode_skips_agent (config : Config) (intf : Interface)
    (hmem : intf ∈ config.interfaces)
    (hm : pyUpper (pyStrip intf.mode) ≠ "M") (hs : pyUpper (pyStrip intf.mode) ≠ "S") :
    agent_intf_ops intf = []
    ∧ ("\t" ++ env_agent_class intf.name ++ " " ++ env_agent_inst intf.name ++ ";\n")
        ∈ env_parts config
    ∧ ("\t\t" ++ env_agent_inst intf.name ++ " = " ++ env_agent_class intf.name
        ++ "::type_id::create(\"" ++ env_agent_inst intf.name ++ "\", this);\n")
        ∈ env_parts config := by
  refine ⟨?_, ?_, ?_⟩
  · simp only [agent_intf_ops]
    rw [if_pos (Or.inr ⟨hm, hs⟩)]
  · have hmap : ("\t" ++ env_agent_class intf.name ++ " " ++ env_agent_inst intf.name ++ ";\n")
        ∈ config.interfaces.map
          (fun intf => "\t" ++ env_agent_class intf.name ++ " " ++ env_agent_inst intf.name ++ ";\n") :=
      List.mem_map_of_mem _ hmem
    simp only [env_parts, List.append_assoc]
    exact List.mem_append_right _ (List.mem_append_left _ hmap)
  · have hmap : ("\t\t" ++ env_agent_inst intf.name ++ " = " ++ env_agent_class intf.name
        ++ "::type_id::create(\"" ++ env_agent_inst intf.name ++ "\", this);\n")
        ∈ config.interfaces.map
          (fun intf => "\t\t" ++ env_agent_inst intf.name ++ " = " ++ env_agent_class intf.name
            ++ "::type_id::create(\"" ++ env_agent_inst intf.name ++ "\", this);\n") :=
      List.mem_map_of_mem _ hmem
    simp only [env_parts, List.append_assoc]
    exact List.mem_append_right _ (List.mem_append_right _ (List.mem_append_right _
      (List.mem_append_left _ hmap)))

def c5_intf : Interface :=
  { name := "i2c", mode := "X", speed := "100", clk := "c1",
    rst := none, rst_type := none }

def c5_config : Config := { interfaces := [c5_intf] }

/-- Witness for C5 at a concrete interface with unrecognised mode `X`. -/
theorem unrecognized_mode_skips_agent_witness :
    agent_intf_ops c5_intf = []
    ∧ ("\t" ++ env_agent_class c5_intf.name ++ " " ++ env_agent_inst c5_intf.name ++ ";\n")
        ∈ env_parts c5_config :=
  ⟨(unrecognized_mode_skips_agent c5_config c5_intf (by decide) (by decide) (by decide)).1,
   (unrecognized_mode_skips_agent c5_config c5_intf (by decide) (by decide) (by decide)).2.1⟩

/-- C6: an interface with a defined (non-`nil`) clock whose frequency field is
zero, negative or not numeric gets its clock declaration emitted in `top.sv`
but no clock-generation statements, and no error is raised (the generator
total-functionally returns the empty list for that section). -/
theorem invalid_frequency_decl_only (config : Config) (intf : Interface)
    (hmem : intf ∈ config.interfaces)
    (hclk : strTruthy intf.clk = true) (hnil : pyLower intf.clk ≠ "nil")
    (hfreq : ∀ n : Int, pyInt intf.speed = some n → n ≤ 0) :
    clockGenLines intf = [] ∧ ("  logic " ++ intf.clk ++ ";") ∈ top_sv_lines config := by
  constructor
  · simp only [clockGenLines]
    split
    · rfl
    · rcases hpy : pyInt intf.speed with _ | n
      · simp [hpy]
      · simp [hpy, hfreq n hpy]
  · have hd : ("  logic " ++ intf.clk ++ ";") ∈ declLines intf := by
      simp [declLines, hclk, hnil]
    have hflat : ("  logic " ++ intf.clk ++ ";") ∈ config.interfaces.flatMap declLines :=
      List.mem_flatMap.mpr ⟨intf, hmem, hd⟩
    simp only [top_sv_lines, List.append_assoc]
    exact List.mem_append_right _ (List.mem_append_left _ hflat)

def c6_intf : Interface :=
  { name := "i2c", mode := "M", speed := "0", clk := "c1",
    rst := none, rst_type := none }

def c6_config : Config := { interfaces := [c6_intf] }

/-- Witness for C6 at a concrete interface with frequency `0`. -/
theorem invalid_frequency_decl_only_witness :
    clockGenLines c6_intf = [] ∧ ("  logic " ++ c6_intf.clk ++ ";") ∈ top_sv_lines c6_config :=
  invalid_frequency_decl_only c6_config c6_intf (by decide) (by decide) (by decide)
    (fun n hn => by
      rw [show pyInt c6_intf.speed = some 0 from by decide] at hn
      cases hn
      decide)

/-- The path of a write operation (appends are dropped). -/
def writePathOf : FileOp → Option String
  | .write p _ => some p
  | .append _ _ => none

/-- The parse result of the C7 configuration. -/
def c7_intf : Interface :=
  { name := "i2c", mode := "M", speed := "100", clk := "c1",
    rst := some "r1", rst_type := some "1" }

set_option maxRecDepth 4000 in
/-- C7: for an interface with mode `M`, clock `c1`, frequency `100`, reset
`r1` and no polarity sub-field: the parser defaults the polarity to the
active-high token `"1"`, the top-level generator emits a clock toggling with
half-period `5.0` (period `10.0` ns) and an active-high reset pulse gated on
the first posedge of `c1`, and the agent generator writes driver, sequencer,
monitor and coverage files (besides the agent file) for that interface. -/
theorem master_interface_full_generation :
    read_interface_csv [["DUT_NAME", "usb"], ["INTF", "i2c", "M", "100", "c1", "r1"]]
      = .ok { dut_name := some "usb", interfaces := [c7_intf] }
    ∧ clockGenLines c7_intf =
        ["  // c1 clock generation at 100 MHz (~10.0ns)",
         "  initial c1 = 0;",
         "  always #5.0 c1 = ~c1;\n"]
    ∧ resetLines c7_intf =
        ["  // r1 reset pulse using @c1, active high",
         "  initial begin",
         "    r1 = 1;",
         "    @(posedge c1);",
         "    r1 = 0;",
         "  end\n"]
    ∧ (agent_intf_ops c7_intf).filterMap writePathOf =
        ["verif/ENV/AGENTS/i2c/i2c_agent.sv",
         "verif/ENV/AGENTS/i2c/i2c_mon.sv",
         "verif/ENV/AGENTS/i2c/i2c_cov.sv",
         "verif/ENV/AGENTS/i2c/i2c_drv.sv",
         "verif/ENV/AGENTS/i2c/i2c_sqr.sv"] :=
  ⟨rfl, by decide, by decide, by decide⟩

/-- A row whose cleaned form is a `NUM_INTF` row with at least two fields and
an unparseable integer in field 2. -/
def badNumRow (rawRow : List String) : Bool :=
  match cleanRow rawRow with
  | first :: v :: _ => rowKeyOf first == "NUM_INTF" && (pyInt v).isNone
  | _ => false

theorem parseRow_badNum (config : Config) (rawRow : List String)
    (h : badNumRow rawRow = true) : ∃ e, parseRow config rawRow = .error e := by
  unfold badNumRow at h
  unfold parseRow
  revert h
  match hrow : cleanRow rawRow with
  | [] => intro h; cases h
  | [first] => intro h; cases h
  | first :: v :: t =>
    intro h
    simp only [Bool.and_eq_true, beq_iff_eq, Option.isNone_iff_eq_none] at h
    obtain ⟨hk, hn⟩ := h
    have hnd : ¬ rowKeyOf first = "DUT_NAME" := by
      rw [hk]
      decide
    simp only [hnd, if_false, hk, if_true, hn]
    exact ⟨_, rfl⟩

theorem parseRows_badNum :
    ∀ (rows : List (List String)) (config : Config),
      (∃ r ∈ rows, badNumRow r = true) → ∃ e, parseRows config rows = .error e := by
  intro rows
  induction rows with
  | nil =>
    intro config h
    obtain ⟨r, hr, -⟩ := h
    cases hr
  | cons row rest ih =>
    intro config hex
    obtain ⟨r, hr, hbad⟩ := hex
    rcases hpr : parseRow config row with e | c'
    · exact ⟨e, by simp [parseRows, hpr]⟩
    · rcases List.mem_cons.mp hr with hhead | htail
      · obtain ⟨e, he⟩ := parseRow_badNum config row (hhead ▸ hbad)
        rw [hpr] at he
        cases he
      · obtain ⟨e, he⟩ := ih c' ⟨r, htail, hbad⟩
        exact ⟨e, by simp [parseRows, hpr, he]⟩

/-- C8: a `NUM_INTF` row with at least two non-blank fields whose second field
is not parseable as an integer makes the whole parse abort with an error
propagated to the caller; a parseable integer is stored as the advisory count
without validation against the number of `INTF` rows (here `5` is accepted
alongside a single interface). -/
theorem num_intf_error_and_advisory :
    (∀ rows : List (List String), (∃ r ∈ rows, badNumRow r = true) →
      ∃ e, read_interface_csv rows = .error e)
    ∧ read_interface_csv [["NUM_INTF", "5"], ["INTF", "a", "M", "100", "c1"]]
        = .ok { dut_name := none, num_interfaces := some 5,
                interfaces := [{ name := "a", mode := "M", speed := "100", clk := "c1",
                                 rst := none, rst_type := none }] } :=
  ⟨fun rows hex => parseRows_badNum rows {} hex, rfl⟩

/-- Witness for C8 at the concrete unparseable row `NUM_INTF, 5x`. -/
theorem num_intf_error_and_advisory_witness :
    ∃ e, read_interface_csv [["NUM_INTF", "5x"]] = .error e :=
  num_intf_error_and_advisory.1 [["NUM_INTF", "5x"]] ⟨["NUM_INTF", "5x"], by decide, by decide⟩

theorem filterMap_flatMap_eq {α β γ : Type} (l : List α) (g : α → List β) (f : β → Option γ) :
    (l.flatMap g).filterMap f = l.flatMap (fun a => (g a).filterMap f) := by
  induction l with
  | nil => rfl
  | cons a rest ih => simp [List.flatMap_cons, List.filterMap_append, ih]

/-- C9: the parsed `interfaces` list has exactly one record per `INTF` row
with at least five non-blank fields, in input row order, with no sorting and
no deduplication (`List.filterMap` preserves order and multiplicity); and the
agent/component generator emits its files grouped per interface in exactly
that list order. -/
theorem parser_preserves_intf_rows :
    (∀ (rows : List (List String)) (config : Config),
      read_interface_csv rows = .ok config →
      config.interfaces = rows.filterMap rowIntf)
    ∧ (∀ config : Config,
        (create_full_agent_ops config).filterMap writePathOf
          = config.interfaces.flatMap (fun intf => (agent_intf_ops intf).filterMap writePathOf)) := by
  constructor
  · intro rows config h
    simpa using parseRows_interfaces rows {} config h
  · intro config
    simp only [create_full_agent_ops, List.filterMap_append,
      filterMap_flatMap_eq config.interfaces agent_intf_ops writePathOf]
    simp [writePathOf, List.filterMap_cons]

/-- Witness for C9 on a concrete row list containing a duplicated `INTF` row,
an interleaved `DUT_NAME` row and a short `INTF` row that is dropped. -/
theorem parser_preserves_intf_rows_witness :
    ({ dut_name := some "d", num_interfaces := none,
       interfaces :=
         [{ name := "a", mode := "M", speed := "1", clk := "c", rst := none, rst_type := none },
          { name := "a", mode := "M", speed := "1", clk := "c", rst := none, rst_type := none }] }
        : Config).interfaces
      = [["INTF", "a", "M", "1", "c"], ["DUT_NAME", "d"], ["INTF", "a", "M", "1", "c"],
         ["INTF", "short", "M", "1"]].filterMap rowIntf :=
  parser_preserves_intf_rows.1
    [["INTF", "a", "M", "1", "c"], ["DUT_NAME", "d"], ["INTF", "a", "M", "1", "c"],
     ["INTF", "short", "M", "1"]] _ rfl

set_option maxRecDepth 10000 in
/-- C10: for an interface whose name lower-cases to `nil` (names from the
parser are whitespace-stripped), the top-level generator omits both the
interface-handle instantiation and the virtual-interface registration, but
the environment generator still declares and creates a `nil_agent` handle,
and — when the mode normalises to `M` or `S` — the agent/component generator
still creates its agent and sub-component files: only the top-level generator
honours the `nil` name sentinel. -/
theorem nil_name_only_top_sentinel (config : Config) (intf : Interface)
    (hmem : intf ∈ config.interfaces)
    (hnil : pyLower intf.name = "nil") (hst : pyStrip intf.name = intf.name) :
    instLines intf = []
    ∧ configDbLines intf = []
    ∧ ("\tnil_agent nil_agent_h;\n") ∈ env_parts config
    ∧ ("\t\tnil_agent_h = nil_agent::type_id::create(\"nil_agent_h\", this);\n")
        ∈ env_parts config
    ∧ (pyUpper (pyStrip intf.mode) = "M" ∨ pyUpper (pyStrip intf.mode) = "S" →
        (∃ c, FileOp.write "verif/ENV/AGENTS/nil/nil_agent.sv" c ∈ agent_intf_ops intf)
        ∧ (∃ c, FileOp.write "verif/ENV/AGENTS/nil/nil_mon.sv" c ∈ agent_intf_ops intf)
        ∧ (∃ c, FileOp.write "verif/ENV/AGENTS/nil/nil_cov.sv" c ∈ agent_intf_ops intf)) := by
  have hnorm : agent_norm intf.name = "nil" := by
    rw [agent_norm, hst, hnil]
  have hac : env_agent_class intf.name = "nil_agent" := by
    rw [env_agent_class, hnil]
    decide
  have hai : env_agent_inst intf.name = "nil_agent_h" := by
    rw [env_agent_inst, hac]
    decide
  refine ⟨?_, ?_, ?_, ?_, ?_⟩
  · simp [instLines, hnil]
  · simp [configDbLines, hnil]
  · have hmap : ("\t" ++ env_agent_class intf.name ++ " " ++ env_agent_inst intf.name ++ ";\n")
        ∈ config.interfaces.map
          (fun intf => "\t" ++ env_agent_class intf.name ++ " " ++ env_agent_inst intf.name ++ ";\n") :=
      List.mem_map_of_mem _ hmem
    rw [hac, hai] at hmap
    have heq : ("\t" ++ "nil_agent" ++ " " ++ "nil_agent_h" ++ ";\n")
        = "\tnil_agent nil_agent_h;\n" := by decide
    rw [heq] at hmap
    simp only [env_parts, List.append_assoc]
    exact List.mem_append_right _ (List.mem_append_left _ hmap)
  · have hmap : ("\t\t" ++ env_agent_inst intf.name ++ " = " ++ env_agent_class intf.name
        ++ "::type_id::create(\"" ++ env_agent_inst intf.name ++ "\", this);\n")
        ∈ config.interfaces.map
          (fun intf => "\t\t" ++ env_agent_inst intf.name ++ " = " ++ env_agent_class intf.name
            ++ "::type_id::create(\"" ++ env_agent_inst intf.name ++ "\", this);\n") :=
      List.mem_map_of_mem _ hmem
    rw [hac, hai] at hmap
    have heq : ("\t\t" ++ "nil_agent_h" ++ " = " ++ "nil_agent"
        ++ "::type_id::create(\"" ++ "nil_agent_h" ++ "\", this);\n")
        = "\t\tnil_agent_h = nil_agent::type_id::create(\"nil_agent_h\", this);\n" := by decide
    rw [heq] at hmap
    simp only [env_parts, List.append_assoc]
    exact List.mem_append_right _ (List.mem_append_right _ (List.mem_append_right _
      (List.mem_append_left _ hmap)))
  · intro hmode
    rcases hmode with hM | hS
    · refine ⟨⟨agent_sv_content "nil" "M", ?_⟩,
        ⟨comp_sv_content "nil" "mon" "uvm_monitor", ?_⟩,
        ⟨comp_sv_content "nil" "cov" "uvm_subscriber", ?_⟩⟩ <;>
        · simp only [agent_intf_ops, hnorm, hM]
          decide
    · refine ⟨⟨agent_sv_content "nil" "S", ?_⟩,
        ⟨comp_sv_content "nil" "mon" "uvm_monitor", ?_⟩,
        ⟨comp_sv_content "nil" "cov" "uvm_subscriber", ?_⟩⟩ <;>
        · simp only [agent_intf_ops, hnorm, hS]
          decide

def c10_intf : Interface :=
  { name := "nil", mode := "M", speed := "100", clk := "c1",
    rst := none, rst_type := none }

def c10_config : Config := { interfaces := [c10_intf] }

/-- Witness for C10 at a concrete master-mode interface named `nil`. -/
theorem nil_name_only_top_sentinel_witness :
    instLines c10_intf = []
    ∧ ("\tnil_agent nil_agent_h;\n") ∈ env_parts c10_config
    ∧ (∃ c, FileOp.write "verif/ENV/AGENTS/nil/nil_agent.sv" c ∈ agent_intf_ops c10_intf) :=
  ⟨(nil_name_only_top_sentinel c10_config c10_intf (by decide) (by decide) (by decide)).1,
   (nil_name_only_top_sentinel c10_config c10_intf (by decide) (by decide) (by decide)).2.2.1,
   ((nil_name_only_top_sentinel c10_config c10_intf (by decide) (by decide) (by decide)).2.2.2.2
     (Or.inl (by decide))).1⟩

end UVMGen
